import Mathlib

/-!
Verification development for the llama-app-generator core triad:
the backend HTTP client (`llama_client.hpp`), the CRTP application-server
base with its two routes (`app_server_base.hpp`), and the runtime
configuration parser/validator (`runtime_config.hpp`).

The embedding is shallow: each C++ function is translated into an
executable Lean definition.  External collaborators (the `httplib`
transport, the `nlohmann::json` parser, the POSIX `access` calls and
`wordexp` expansion) are modelled as explicit inputs: a transport outcome
is an `Option HttpResult`, a JSON decoder is a `String → Option Json`
oracle, the filesystem is a pair of Boolean predicates, and shell
expansion is a `List Char → List Char` parameter.  Machine strings are
`List Char` where character-level reasoning is needed and `String` for
the fixed diagnostic messages.
-/

namespace LlamaApp

/-- JSON values as constructed by the sources, parameterised by the type
`N` used for the floating-point `temperature` field (carried opaquely,
never computed with). -/
inductive Json (N : Type) where
  | str : String → Json N
  | int : Int → Json N
  | num : N → Json N
  | arr : List (Json N) → Json N
  | obj : List (String × Json N) → Json N

/-- Keys of a JSON object (empty for non-objects). -/
def objKeys {N : Type} : Json N → List String
  | .obj fields => fields.map (fun f => f.1)
  | _ => []

/-- Field lookup in a JSON object. -/
def objGet {N : Type} (j : Json N) (k : String) : Option (Json N) :=
  match j with
  | .obj fields => fields.lookup k
  | _ => none

/-- An HTTP response as delivered by the `httplib` transport: a status
code and a raw body.  `LlamaClient` receives `Option HttpResult`; `none`
models `!res` (no response / connection error). -/
structure HttpResult where
  status : Nat
  body : String

/-- What `LlamaClient` operations throw, translated from the source:
`std::runtime_error` with its message string, or the
`nlohmann::json::parse_error` raised by `json::parse` on a malformed
body. -/
inductive ClientError where
  | runtimeError : String → ClientError
  | jsonParseError : ClientError
deriving DecidableEq

/-- `LlamaClient::complete`, response side (`src/unnamed/part_002`,
lines 128-140): no response throws the connection-error
`std::runtime_error`, a non-200 status throws the status-carrying
`std::runtime_error`, otherwise the body is given to `json::parse`,
whose failure is a `parse_error`.  The JSON parser of the external
`nlohmann` library is the oracle `parseJson`. -/
def complete {N : Type} (parseJson : String → Option (Json N))
    (res : Option HttpResult) : Except ClientError (Json N) :=
  match res with
  | none => .error (.runtimeError "HTTP request failed: connection error")
  | some r =>
    if r.status ≠ 200 then
      .error (.runtimeError ("HTTP request failed with status: " ++ toString r.status))
    else
      match parseJson r.body with
      | some j => .ok j
      | none => .error .jsonParseError

/-- `LlamaClient::complete`, request side (`src/unnamed/part_002`,
lines 115-120): the JSON body posted to `/completion`. -/
def completeRequestBody {N : Type} (prompt : String) (max_tokens : Int)
    (temperature : N) : Json N :=
  .obj [("prompt", .str prompt),
        ("n_predict", .int max_tokens),
        ("temperature", .num temperature),
        ("stop", .arr [.str "User:", .str "\n\n"])]

/-- `LlamaClient::chat`, response side (`src/unnamed/part_002`,
lines 167-179); identical error translation to `complete`. -/
def chat {N : Type} (parseJson : String → Option (Json N))
    (res : Option HttpResult) : Except ClientError (Json N) :=
  match res with
  | none => .error (.runtimeError "HTTP request failed: connection error")
  | some r =>
    if r.status ≠ 200 then
      .error (.runtimeError ("HTTP request failed with status: " ++ toString r.status))
    else
      match parseJson r.body with
      | some j => .ok j
      | none => .error .jsonParseError

/-- `LlamaClient::get_models` (`src/unnamed/part_002`, lines 212-231);
the non-200 message differs from `complete`/`chat`. -/
def get_models {N : Type} (parseJson : String → Option (Json N))
    (res : Option HttpResult) : Except ClientError (Json N) :=
  match res with
  | none => .error (.runtimeError "HTTP request failed: connection error")
  | some r =>
    if r.status ≠ 200 then
      .error (.runtimeError ("Failed to get models, status: " ++ toString r.status))
    else
      match parseJson r.body with
      | some j => .ok j
      | none => .error .jsonParseError

/-- Outcome of the `GET /health` probe inside `is_alive`: an exception
escaping the try block, no response (`!res`, covering refusal and the
5-second timeout), or a response with a status code. -/
inductive ProbeOutcome where
  | exn : ProbeOutcome
  | noResponse : ProbeOutcome
  | response : Nat → ProbeOutcome
deriving DecidableEq

/-- `LlamaClient::is_alive` (`src/unnamed/part_002`, lines 187-203):
`return (res && res->status == 200);` with `catch (...) { return false; }`. -/
def is_alive : ProbeOutcome → Bool
  | .exn => false
  | .noResponse => false
  | .response s => s == 200

/-- The read/write timeout `is_alive` installs on its probe client
(`std::chrono::seconds(5)` in the source). -/
def isAliveTimeoutSeconds : Nat := 5

/-- Boolean test that `pat` is an initial segment of `s`; models
`std::string::find(pat) == 0` as used by `LlamaClient::parse_url`. -/
def beginsWith : List Char → List Char → Bool
  | [], _ => true
  | _ :: _, [] => false
  | a :: as, b :: bs => a == b && beginsWith as bs

/-- Characters accepted by `isspace` in the C locale, as skipped by
`std::stoi` and by `std::istream` extraction. -/
def isCSpace (c : Char) : Bool :=
  c == ' ' || c == '\t' || c == '\n' || c == Char.ofNat 11 || c == Char.ofNat 12 || c == '\r'

/-- The digit characters, `'0'` through `'9'`. -/
def isDigitChar (c : Char) : Bool :=
  48 ≤ c.toNat && c.toNat ≤ 57

/-- Numeric value of a digit character. -/
def digitVal (c : Char) : Nat := c.toNat - 48

/-- Value of a big-endian digit string (the accumulation both `std::stoi`
and stream extraction perform). -/
def digitsToNat (ds : List Char) : Nat :=
  ds.foldl (fun a c => a * 10 + digitVal c) 0

/-- Leading sign handling of C++ integer parsing: consume one `'-'` or
`'+'` and report whether the result is negated. -/
def splitSign (s : List Char) : Bool × List Char :=
  match s with
  | [] => (false, [])
  | c :: rest =>
    if c = '-' then (true, rest)
    else if c = '+' then (false, rest)
    else (false, c :: rest)

/-- C++ parsing of an `int` from a character sequence, modelling both
`std::stoi` (used by `LlamaClient::parse_url`) and
`std::istringstream >> int` (used by `RuntimeConfig::from_file`):
skip `isspace` characters, consume an optional sign and a digit run,
fail when no digit is present or when the value exceeds the range of a
32-bit `int`; characters after the digit run are ignored. -/
def readInt (cs : List Char) : Option Int :=
  let s1 := cs.dropWhile isCSpace
  let sr := splitSign s1
  let ds := sr.2.takeWhile isDigitChar
  if ds = [] then none
  else
    let n : Int := Int.ofNat (digitsToNat ds)
    let v : Int := if sr.1 then -n else n
    if v < -2147483648 ∨ 2147483647 < v then none else some v

/-- Scheme stripping at the start of `LlamaClient::parse_url`
(`src/unnamed/part_002`, lines 66-74). -/
def stripScheme (u : List Char) : List Char :=
  if beginsWith "http://".toList u then u.drop 7
  else if beginsWith "https://".toList u then u.drop 8
  else u

/-- `LlamaClient::parse_url` (`src/unnamed/part_002`, lines 63-88): after
scheme stripping, split at the first `':'` into host and a port parsed
with `std::stoi` (failure of which aborts construction, hence `none`);
without a colon the whole remainder is the host and the port defaults
to 8080. -/
def parse_url (url : List Char) : Option (List Char × Int) :=
  let clean := stripScheme url
  if ':' ∈ clean then
    let host := clean.takeWhile (fun c => c != ':')
    let portStr := clean.drop (host.length + 1)
    match readInt portStr with
    | some p => some (host, p)
    | none => none
  else
    some (clean, 8080)

/-- Decimal digits of `n`, most significant first; fuel-based so that it
evaluates by kernel reduction. -/
def natToCharsAux : Nat → Nat → List Char
  | 0, _ => []
  | fuel + 1, n =>
    if n = 0 then []
    else natToCharsAux fuel (n / 10) ++ [Char.ofNat (48 + n % 10)]

/-- `std::to_string` on a natural number: canonical decimal notation. -/
def natToChars (n : Nat) : List Char :=
  if n = 0 then ['0'] else natToCharsAux (n + 1) n

/-- `std::to_string` on an `int`. -/
def intToChars (i : Int) : List Char :=
  if i < 0 then '-' :: natToChars i.natAbs else natToChars i.toNat

/-- `LlamaClient::get_server_url` (`src/unnamed/part_002`,
lines 238-241): `"http://" + host_ + ":" + std::to_string(port_)`. -/
def get_server_url (host : List Char) (port : Int) : List Char :=
  "http://".toList ++ host ++ ':' :: intToChars port

/-- One HTTP response produced by a route of `AppServerBase`. -/
structure HttpResponse (N : Type) where
  status : Nat
  body : Json N

/-- The `POST /api` route installed by `AppServerBase::setup_routes`
(`src/unnamed/part_003`, lines 153-173).  The inbound body arrives here
already as the outcome of `json::parse` (`.error msg` when the external
parser threw, carrying `e.what()`); the injected business logic is
`handler`, whose raised `std::exception` is likewise an `.error msg`.
Both kinds of exception reach the single `catch` block, which answers
status 500 with `{"error": e.what(), "status": "failed"}`; on success
the serialized handler output is returned with the default status 200. -/
def api_route {N : Type} (handler : Json N → Except String (Json N))
    (decoded : Except String (Json N)) : HttpResponse N :=
  match decoded with
  | .error msg =>
    { status := 500, body := .obj [("error", .str msg), ("status", .str "failed")] }
  | .ok request =>
    match handler request with
    | .ok response => { status := 200, body := response }
    | .error msg =>
      { status := 500, body := .obj [("error", .str msg), ("status", .str "failed")] }

/-- The `GET /health` route of `AppServerBase::setup_routes`
(`src/unnamed/part_003`, lines 142-149). -/
def health_route {N : Type} : HttpResponse N :=
  { status := 200, body := .obj [("status", .str "ok"), ("service", .str "app-server")] }

/-- The dispatcher serving a sequence of independent `/api` requests:
`httplib` runs one worker per request and `AppServerBase` holds no
mutable per-request state, so the response sequence is the pointwise
image of `api_route`. -/
def serve {N : Type} (handler : Json N → Except String (Json N))
    (requests : List (Except String (Json N))) : List (HttpResponse N) :=
  requests.map (api_route handler)

/-- `RuntimeConfig` (`src/examples/summarizer/include/runtime_config.hpp`,
lines 57-62). -/
structure RuntimeConfig where
  llama_bin_path : List Char
  model_path : List Char
  llama_server_port : Int
  app_server_port : Int
deriving DecidableEq

/-- Whitespace set of `RuntimeConfig::trim`: `" \t\r\n"`. -/
def isTrimChar (c : Char) : Bool :=
  c == ' ' || c == '\t' || c == '\r' || c == '\n'

/-- `RuntimeConfig::trim` (`runtime_config.hpp`, lines 85-96): strip the
characters of `" \t\r\n"` from both ends; an all-whitespace string
becomes empty. -/
def trim (cs : List Char) : List Char :=
  ((cs.dropWhile isTrimChar).reverse.dropWhile isTrimChar).reverse

/-- The per-line rejection test of `from_file`:
`line.empty() || line[0] == '#'` applied to the trimmed line. -/
def rejectedLine (t : List Char) : Bool :=
  match t with
  | [] => true
  | c :: _ => c == '#'

/-- `RuntimeConfig::from_file` (`runtime_config.hpp`, lines 106-196) on
the line sequence produced by `std::getline`.  Shell expansion
(`expand_path`, a thin wrapper over the external `wordexp`) is the
parameter `expand`.  Each of the four reads mirrors the source: a failed
`getline` (list exhausted) raises the per-field message, a trimmed line
that is empty or starts with `'#'` raises the `"Line n: ..."` message,
and the two port lines go through stream extraction (`readInt`). -/
def from_file (expand : List Char → List Char) (lines : List (List Char)) :
    Except String RuntimeConfig :=
  match lines with
  | [] => .error "Config file is empty"
  | l1 :: rest1 =>
    let t1 := trim l1
    if rejectedLine t1 then .error "Line 1: llama bin path is required"
    else
      match rest1 with
      | [] => .error "Missing model path in config"
      | l2 :: rest2 =>
        let t2 := trim l2
        if rejectedLine t2 then .error "Line 2: model path is required"
        else
          match rest2 with
          | [] => .error "Missing llama-server port in config"
          | l3 :: rest3 =>
            let t3 := trim l3
            if rejectedLine t3 then .error "Line 3: llama-server port is required"
            else
              match readInt t3 with
              | none => .error "Line 3: Invalid port number"
              | some px =>
                match rest3 with
                | [] => .error "Missing app-server port in config"
                | l4 :: _ =>
                  let t4 := trim l4
                  if rejectedLine t4 then .error "Line 4: app-server port is required"
                  else
                    match readInt t4 with
                    | none => .error "Line 4: Invalid port number"
                    | some py =>
                      .ok { llama_bin_path := expand t1
                            model_path := expand t2
                            llama_server_port := px
                            app_server_port := py }

/-- `RuntimeConfig::get_llama_server_path` (`runtime_config.hpp`,
lines 203-206). -/
def get_llama_server_path (c : RuntimeConfig) : List Char :=
  c.llama_bin_path ++ "/llama-server".toList

/-- The filesystem as observed through `access(path, X_OK)` and
`access(path, R_OK)` in `RuntimeConfig::validate`. -/
structure FileSys where
  executable : List Char → Bool
  readable : List Char → Bool

/-- `RuntimeConfig::validate` (`runtime_config.hpp`, lines 229-259),
checks in source order: executable server binary, readable model file,
both ports in [1024, 65535], and distinct ports. -/
def validate (fs : FileSys) (c : RuntimeConfig) : Except String Unit :=
  if fs.executable (get_llama_server_path c) = false then
    .error ("llama-server not found or not executable: " ++ String.mk (get_llama_server_path c))
  else if fs.readable c.model_path = false then
    .error ("Model file not found or not readable: " ++ String.mk c.model_path)
  else if c.llama_server_port < 1024 ∨ 65535 < c.llama_server_port then
    .error ("Invalid llama-server port: " ++ toString c.llama_server_port)
  else if c.app_server_port < 1024 ∨ 65535 < c.app_server_port then
    .error ("Invalid app-server port: " ++ toString c.app_server_port)
  else if c.llama_server_port = c.app_server_port then
    .error "llama-server and app-server ports must be different"
  else
    .ok ()

/-- Whether a diagnostic message names configuration line `n`, i.e.
starts with `"Line n"`. -/
def namesLine (msg : String) (n : Nat) : Bool :=
  beginsWith ("Line " ++ toString n).toList msg.toList

end LlamaApp

namespace LlamaApp

/-! ## Helper lemmas -/

lemma beginsWith_append (p rest : List Char) : beginsWith p (p ++ rest) = true := by
  induction p with
  | nil => rfl
  | cons c t ih => simp [beginsWith, ih]

lemma takeWhile_all {p : Char → Bool} (xs : List Char)
    (hall : ∀ c ∈ xs, p c = true) : xs.takeWhile p = xs := by
  induction xs with
  | nil => rfl
  | cons a t ih =>
    have ha : p a = true := hall a (by simp)
    simp [List.takeWhile_cons, ha, ih (fun c hc => hall c (by simp [hc]))]

lemma takeWhile_all_append {p : Char → Bool} (xs : List Char) (y : Char) (ys : List Char)
    (hall : ∀ c ∈ xs, p c = true) (hy : p y = false) :
    (xs ++ y :: ys).takeWhile p = xs := by
  induction xs with
  | nil => simp [List.takeWhile_cons, hy]
  | cons a t ih =>
    have ha : p a = true := hall a (by simp)
    simp [List.takeWhile_cons, ha, ih (fun c hc => hall c (by simp [hc]))]

lemma drop_len_succ (xs : List Char) (y : Char) (ys : List Char) :
    (xs ++ y :: ys).drop (xs.length + 1) = ys := by
  induction xs with
  | nil => simp
  | cons a t ih => simp [ih]

lemma isDigitChar_bounds {c : Char} (h : isDigitChar c = true) :
    48 ≤ c.toNat ∧ c.toNat ≤ 57 := by
  simpa [isDigitChar] using h

lemma isCSpace_of_digit {c : Char} (h : isDigitChar c = true) : isCSpace c = false := by
  obtain ⟨h1, h2⟩ := isDigitChar_bounds h
  simp only [isCSpace, Bool.or_eq_false_iff, beq_eq_false_iff_ne]
  refine ⟨⟨⟨⟨⟨?_, ?_⟩, ?_⟩, ?_⟩, ?_⟩, ?_⟩ <;>
    { intro he; subst he; revert h1 h2; decide }

lemma splitSign_digit {c : Char} (rest : List Char) (h : isDigitChar c = true) :
    splitSign (c :: rest) = (false, c :: rest) := by
  obtain ⟨h1, h2⟩ := isDigitChar_bounds h
  have hm : c ≠ '-' := by intro he; subst he; revert h1; decide
  have hp : c ≠ '+' := by intro he; subst he; revert h1; decide
  simp [splitSign, hm, hp]

lemma readInt_digits (P : List Char) (hne : P ≠ [])
    (hd : ∀ c ∈ P, isDigitChar c = true) (hv : digitsToNat P ≤ 65535) :
    readInt P = some (Int.ofNat (digitsToNat P)) := by
  obtain ⟨c, rest, rfl⟩ := List.exists_cons_of_ne_nil hne
  have hc := hd c (by simp)
  have h1 : (c :: rest).dropWhile isCSpace = c :: rest := by
    simp [List.dropWhile_cons, isCSpace_of_digit hc]
  have h2 : splitSign (c :: rest) = (false, c :: rest) := splitSign_digit rest hc
  have h3 : (c :: rest).takeWhile isDigitChar = c :: rest := takeWhile_all _ hd
  simp only [readInt, h1, h2, h3]
  rw [if_neg (by simp)]
  simp only [Bool.false_eq_true, if_false]
  rw [if_neg (by simp only [Int.ofNat_eq_natCast]; omega)]

lemma natToCharsAux_eq (fuel n : Nat) (h : n ≤ fuel) :
    natToCharsAux fuel n = ((Nat.digits 10 n).map (fun d => Char.ofNat (48 + d))).reverse := by
  induction fuel generalizing n with
  | zero =>
    have hz : n = 0 := by omega
    subst hz
    simp [natToCharsAux]
  | succ f ih =>
    by_cases h0 : n = 0
    · subst h0; simp [natToCharsAux]
    · have hdiv : n / 10 ≤ f := by
        have := Nat.div_lt_self (Nat.pos_of_ne_zero h0) (by norm_num : 1 < 10)
        omega
      rw [natToCharsAux, if_neg h0, ih (n / 10) hdiv,
        Nat.digits_def' (by norm_num : (1 : ℕ) < 10) (Nat.pos_of_ne_zero h0)]
      simp

lemma natToChars_eq {n : Nat} (h : n ≠ 0) :
    natToChars n = ((Nat.digits 10 n).map (fun d => Char.ofNat (48 + d))).reverse := by
  rw [natToChars, if_neg h, natToCharsAux_eq (n + 1) n (Nat.le_succ n)]

lemma digitsToNat_eq_ofDigits (P : List Char) :
    digitsToNat P = Nat.ofDigits 10 ((P.map digitVal).reverse) := by
  suffices h : ∀ a : Nat, P.foldl (fun a c => a * 10 + digitVal c) a
      = a * 10 ^ P.length + Nat.ofDigits 10 ((P.map digitVal).reverse) by
    simpa [digitsToNat] using h 0
  induction P with
  | nil => intro a; simp [Nat.ofDigits]
  | cons c t ih =>
    intro a
    simp only [List.foldl_cons, List.length_cons, List.map_cons, List.reverse_cons]
    rw [ih, Nat.ofDigits_append]
    simp only [List.length_reverse, List.length_map, Nat.ofDigits_singleton]
    ring

lemma natToChars_digitsToNat (P : List Char) (hne : P ≠ [])
    (hd : ∀ c ∈ P, isDigitChar c = true) (h0 : P.head? = some '0' → P = ['0']) :
    natToChars (digitsToNat P) = P := by
  by_cases hz : P = ['0']
  · subst hz; rfl
  · obtain ⟨c, rest, rfl⟩ := List.exists_cons_of_ne_nil hne
    have hc := hd c (by simp)
    have hc0 : c ≠ '0' := by
      intro he; subst he; exact hz (h0 rfl)
    have hlt : ∀ d ∈ ((c :: rest).map digitVal).reverse, d < 10 := by
      intro d hdm
      rw [List.mem_reverse, List.mem_map] at hdm
      obtain ⟨x, hx, rfl⟩ := hdm
      have hb := isDigitChar_bounds (hd x hx)
      simp only [digitVal]
      omega
    have hlast : ∀ h2 : ((c :: rest).map digitVal).reverse ≠ [],
        (((c :: rest).map digitVal).reverse).getLast h2 ≠ 0 := by
      intro h2
      rw [List.getLast_reverse]
      simp only [List.map_cons, List.head_cons]
      have hb := isDigitChar_bounds hc
      have h48 : c.toNat ≠ 48 := by
        intro he
        have hco : c = Char.ofNat 48 := by
          have := congrArg Char.ofNat he
          rwa [Char.ofNat_toNat] at this
        exact hc0 (hco.trans (by decide))
      simp only [digitVal]
      omega
    have hdig : Nat.digits 10 (digitsToNat (c :: rest)) = ((c :: rest).map digitVal).reverse := by
      rw [digitsToNat_eq_ofDigits]
      exact Nat.digits_ofDigits 10 (by norm_num) _ hlt hlast
    have hnz : digitsToNat (c :: rest) ≠ 0 := by
      intro hzz
      rw [hzz] at hdig
      simp only [Nat.digits_zero] at hdig
      exact absurd hdig.symm (by simp)
    rw [natToChars_eq hnz, hdig, List.map_reverse, List.reverse_reverse, List.map_map]
    have hid : ∀ x ∈ c :: rest, ((fun d => Char.ofNat (48 + d)) ∘ digitVal) x = id x := by
      intro x hx
      have hb := isDigitChar_bounds (hd x hx)
      simp only [Function.comp_apply, digitVal, id_eq]
      rw [Nat.add_sub_cancel' hb.1]
      exact Char.ofNat_toNat x
    rw [List.map_congr_left hid, List.map_id]

lemma backend_msg_ne_transport (pre : String) (s : Nat) (i : Nat)
    (hi : i < pre.data.length)
    (hne : pre.data[i]? ≠ ("HTTP request failed: connection error").data[i]?) :
    (pre ++ toString s) ≠ "HTTP request failed: connection error" := by
  intro h
  have hd : (pre ++ toString s).data = ("HTTP request failed: connection error").data :=
    congrArg String.data h
  rw [String.data_append] at hd
  have hidx : (pre.data ++ (toString s).data)[i]?
      = (("HTTP request failed: connection error").data)[i]? := by rw [hd]
  rw [List.getElem?_append_left hi] at hidx
  exact hne hidx

/-! ## Claim theorems -/

/-- C1: the spec claims a syntactically invalid `/api` body yields
HTTP 400; in `AppServerBase::setup_routes` the `json::parse` exception
reaches the same catch-all block as handler errors, so the dispatcher
answers 500 (with the decode message in the payload, and without
invoking the handler).  This theorem evaluates the route at a failed
decode: the status is 500, not 400, and the response is independent of
the installed handler. -/
theorem api_decode_failure_yields_500 :
    api_route (fun j : Json Unit => .ok j) (.error "syntax error while parsing")
      = ⟨500, .obj [("error", .str "syntax error while parsing"), ("status", .str "failed")]⟩
  ∧ (api_route (fun j : Json Unit => .ok j) (.error "syntax error while parsing")).status ≠ 400
  ∧ ∀ (h1 h2 : Json Unit → Except String (Json Unit)) (msg : String),
      api_route h1 (.error msg) = api_route h2 (.error msg) :=
  ⟨rfl, by decide, fun _ _ _ => rfl⟩

/-- C6: `is_alive` is a total Boolean function of the probe outcome
(exceptions are part of its input domain, so it never raises), it
returns `true` exactly on an HTTP 200 response, and the probe timeout it
installs is 5 seconds. -/
theorem is_alive_never_raises :
    (∀ o : ProbeOutcome, is_alive o = true ↔ o = .response 200)
  ∧ isAliveTimeoutSeconds = 5 := by
  refine ⟨fun o => ?_, rfl⟩
  cases o with
  | exn => simp [is_alive]
  | noResponse => simp [is_alive]
  | response s => simp [is_alive]

/-- C7: when the invoked business handler raises, the `/api` route
answers 500 with a JSON payload carrying the error message, and a
request sequence containing such a request is served pointwise: every
other request gets exactly the response it would get alone (the
dispatcher keeps no mutable per-request state, so no crash and no
influence on subsequent requests). -/
theorem handler_error_responds_500 (N : Type)
    (handler : Json N → Except String (Json N)) (req : Json N) (msg : String)
    (h : handler req = .error msg) :
    api_route handler (.ok req)
      = ⟨500, .obj [("error", .str msg), ("status", .str "failed")]⟩
  ∧ ∀ (pre post : List (Except String (Json N))),
      serve handler (pre ++ .ok req :: post)
        = serve handler pre ++ api_route handler (.ok req) :: serve handler post := by
  constructor
  · simp [api_route, h]
  · intro pre post
    simp [serve]

/-- Witness for C7 at a concrete erroring handler. -/
theorem handler_error_responds_500_witness :
    api_route (fun _ : Json Unit => (.error "boom" : Except String (Json Unit))) (.ok (.obj []))
      = ⟨500, .obj [("error", .str "boom"), ("status", .str "failed")]⟩ :=
  (handler_error_responds_500 Unit (fun _ => .error "boom") (.obj []) "boom" rfl).1

/-- C8: the request body built by `complete(P, N, T)` is a JSON object
whose keys are exactly `prompt`, `n_predict`, `temperature`, `stop`,
bound to the prompt, the token count, the temperature, and the fixed
stop-sequence list `["User:", "\n\n"]`. -/
theorem complete_request_body_fields (N : Type) (P : String) (maxTok : Int) (T : N) :
    objKeys (completeRequestBody P maxTok T) = ["prompt", "n_predict", "temperature", "stop"]
  ∧ objGet (completeRequestBody P maxTok T) "prompt" = some (.str P)
  ∧ objGet (completeRequestBody P maxTok T) "n_predict" = some (.int maxTok)
  ∧ objGet (completeRequestBody P maxTok T) "temperature" = some (.num T)
  ∧ objGet (completeRequestBody P maxTok T) "stop"
      = some (.arr [.str "User:", .str "\n\n"]) :=
  ⟨rfl, rfl, rfl, rfl, rfl⟩

/-- C10: `from_file` consumes exactly four `getline` reads, so whenever
the first four lines produce a configuration, any trailing content is
never inspected and cannot change the result. -/
theorem from_file_reads_only_four_lines (expand : List Char → List Char)
    (l1 l2 l3 l4 : List Char) (rest : List (List Char)) (c : RuntimeConfig)
    (h : from_file expand [l1, l2, l3, l4] = .ok c) :
    from_file expand (l1 :: l2 :: l3 :: l4 :: rest) = .ok c := h

/-- Witness for C10: a config with a trailing garbage line parses to the
same configuration as its first four lines. -/
theorem from_file_reads_only_four_lines_witness :
    from_file (fun s => s)
      ["a".toList, "b".toList, "8080".toList, "8081".toList, "# trailing".toList]
      = .ok ⟨"a".toList, "b".toList, 8080, 8081⟩ :=
  from_file_reads_only_four_lines (fun s => s) "a".toList "b".toList "8080".toList
    "8081".toList ["# trailing".toList] ⟨"a".toList, "b".toList, 8080, 8081⟩ rfl

end LlamaApp

namespace LlamaApp

/-- C2: for `complete`, `chat` and `get_models`, the absence of a
response raises the connection-error `std::runtime_error`, a non-200
status raises a `std::runtime_error` carrying the status code in its
message, and an unparseable 200 body raises the JSON `parse_error`; the
three raised values are pairwise distinct, so the caller can tell the
transport, backend and decode failures apart. -/
theorem client_error_taxonomy :
    (∀ (N : Type) (parseJson : String → Option (Json N)),
        complete parseJson none
          = .error (.runtimeError "HTTP request failed: connection error")
      ∧ chat parseJson none
          = .error (.runtimeError "HTTP request failed: connection error")
      ∧ get_models parseJson none
          = .error (.runtimeError "HTTP request failed: connection error"))
  ∧ (∀ (N : Type) (parseJson : String → Option (Json N)) (s : Nat) (b : String),
      s ≠ 200 →
        complete parseJson (some ⟨s, b⟩)
          = .error (.runtimeError ("HTTP request failed with status: " ++ toString s))
      ∧ chat parseJson (some ⟨s, b⟩)
          = .error (.runtimeError ("HTTP request failed with status: " ++ toString s))
      ∧ get_models parseJson (some ⟨s, b⟩)
          = .error (.runtimeError ("Failed to get models, status: " ++ toString s)))
  ∧ (∀ (N : Type) (parseJson : String → Option (Json N)) (b : String),
      parseJson b = none →
        complete parseJson (some ⟨200, b⟩) = .error .jsonParseError
      ∧ chat parseJson (some ⟨200, b⟩) = .error .jsonParseError
      ∧ get_models parseJson (some ⟨200, b⟩) = .error .jsonParseError)
  ∧ (∀ s : Nat,
        ClientError.runtimeError ("HTTP request failed with status: " ++ toString s)
          ≠ .runtimeError "HTTP request failed: connection error"
      ∧ ClientError.runtimeError ("Failed to get models, status: " ++ toString s)
          ≠ .runtimeError "HTTP request failed: connection error"
      ∧ ClientError.runtimeError ("HTTP request failed with status: " ++ toString s)
          ≠ .jsonParseError
      ∧ ClientError.runtimeError ("Failed to get models, status: " ++ toString s)
          ≠ .jsonParseError
      ∧ ClientError.runtimeError "HTTP request failed: connection error"
          ≠ .jsonParseError) := by
  refine ⟨fun N pj => ⟨rfl, rfl, rfl⟩, fun N pj s b hs => ?_, fun N pj b hb => ?_, fun s => ?_⟩
  · exact ⟨by simp [complete, hs], by simp [chat, hs], by simp [get_models, hs]⟩
  · exact ⟨by simp [complete, hb], by simp [chat, hb], by simp [get_models, hb]⟩
  · refine ⟨?_, ?_, by simp, by simp, by simp⟩
    · intro h
      rw [ClientError.runtimeError.injEq] at h
      exact backend_msg_ne_transport "HTTP request failed with status: " s 19
        (by decide) (by decide) h
    · intro h
      rw [ClientError.runtimeError.injEq] at h
      exact backend_msg_ne_transport "Failed to get models, status: " s 0
        (by decide) (by decide) h

/-- Witness for C2 at concrete failures: a 503 response, an unparseable
200 body, and a missing response. -/
theorem client_error_taxonomy_witness :
    complete (fun _ : String => (none : Option (Json Unit))) (some ⟨503, ""⟩)
      = .error (.runtimeError ("HTTP request failed with status: " ++ toString 503))
  ∧ get_models (fun _ : String => (none : Option (Json Unit))) (some ⟨200, "oops"⟩)
      = .error .jsonParseError
  ∧ complete (fun _ : String => (none : Option (Json Unit))) none
      = .error (.runtimeError "HTTP request failed: connection error") :=
  ⟨(client_error_taxonomy.2.1 Unit (fun _ => none) 503 "" (by decide)).1,
   (client_error_taxonomy.2.2.1 Unit (fun _ => none) "oops" rfl).2.2,
   (client_error_taxonomy.1 Unit (fun _ => none)).1⟩

/-- C3 counterexample: the one-line source `["a"]` is missing
significant line 2, yet `from_file` reports
`"Missing model path in config"`, a diagnostic that does not name
line 2. -/
theorem missing_line_unnumbered_diagnostic :
    from_file (fun s => s) ["a".toList] = .error "Missing model path in config"
  ∧ namesLine "Missing model path in config" 2 = false :=
  ⟨rfl, by decide⟩

/-- C3 amended: when line `n` is physically present but insignificant
(blank or a comment after trimming), `from_file` fails with the
`"Line n: ..."` diagnostic naming line `n`; when the source ends before
line `n`, it fails with a diagnostic naming the missing field (or
`"Config file is empty"` for an empty source) which does not carry the
line number. -/
theorem from_file_line_diagnostics (expand : List Char → List Char) :
    from_file expand [] = .error "Config file is empty"
  ∧ (∀ l1 rest, rejectedLine (trim l1) = true →
      from_file expand (l1 :: rest) = .error "Line 1: llama bin path is required")
  ∧ (∀ l1, rejectedLine (trim l1) = false →
      from_file expand [l1] = .error "Missing model path in config")
  ∧ (∀ l1 l2 rest, rejectedLine (trim l1) = false → rejectedLine (trim l2) = true →
      from_file expand (l1 :: l2 :: rest) = .error "Line 2: model path is required")
  ∧ (∀ l1 l2, rejectedLine (trim l1) = false → rejectedLine (trim l2) = false →
      from_file expand [l1, l2] = .error "Missing llama-server port in config")
  ∧ (∀ l1 l2 l3 rest, rejectedLine (trim l1) = false → rejectedLine (trim l2) = false →
      rejectedLine (trim l3) = true →
      from_file expand (l1 :: l2 :: l3 :: rest)
        = .error "Line 3: llama-server port is required")
  ∧ (∀ l1 l2 l3 p, rejectedLine (trim l1) = false → rejectedLine (trim l2) = false →
      rejectedLine (trim l3) = false → readInt (trim l3) = some p →
      from_file expand [l1, l2, l3] = .error "Missing app-server port in config")
  ∧ (∀ l1 l2 l3 l4 rest p, rejectedLine (trim l1) = false →
      rejectedLine (trim l2) = false → rejectedLine (trim l3) = false →
      readInt (trim l3) = some p → rejectedLine (trim l4) = true →
      from_file expand (l1 :: l2 :: l3 :: l4 :: rest)
        = .error "Line 4: app-server port is required")
  ∧ (namesLine "Line 1: llama bin path is required" 1 = true
      ∧ namesLine "Line 2: model path is required" 2 = true
      ∧ namesLine "Line 3: llama-server port is required" 3 = true
      ∧ namesLine "Line 4: app-server port is required" 4 = true)
  ∧ (namesLine "Config file is empty" 1 = false
      ∧ namesLine "Missing model path in config" 2 = false
      ∧ namesLine "Missing llama-server port in config" 3 = false
      ∧ namesLine "Missing app-server port in config" 4 = false) := by
  refine ⟨rfl, fun l1 rest h1 => ?_, fun l1 h1 => ?_, fun l1 l2 rest h1 h2 => ?_,
    fun l1 l2 h1 h2 => ?_, fun l1 l2 l3 rest h1 h2 h3 => ?_,
    fun l1 l2 l3 p h1 h2 h3 h4 => ?_, fun l1 l2 l3 l4 rest p h1 h2 h3 h4 h5 => ?_,
    ⟨by decide, by decide, by decide, by decide⟩,
    ⟨by decide, by decide, by decide, by decide⟩⟩ <;>
    simp [from_file, h1]
  · simp [h2]
  · simp [h2]
  · simp [h2, h3]
  · simp [h2, h3, h4]
  · simp [h2, h3, h4, h5]

/-- Witness for C3 at concrete sources exercising every diagnostic. -/
theorem from_file_line_diagnostics_witness :
    from_file (fun s => s) [[]] = .error "Line 1: llama bin path is required"
  ∧ from_file (fun s => s) [['a']] = .error "Missing model path in config"
  ∧ from_file (fun s => s) [['a'], ['#']] = .error "Line 2: model path is required"
  ∧ from_file (fun s => s) [['a'], ['b']] = .error "Missing llama-server port in config"
  ∧ from_file (fun s => s) [['a'], ['b'], [' ']]
      = .error "Line 3: llama-server port is required"
  ∧ from_file (fun s => s) [['a'], ['b'], ['8']]
      = .error "Missing app-server port in config"
  ∧ from_file (fun s => s) [['a'], ['b'], ['8'], ['#']]
      = .error "Line 4: app-server port is required" := by
  obtain ⟨e0, e1, e2, e3, e4, e5, e6, e7, hpos, hneg⟩ :=
    from_file_line_diagnostics (fun s => s)
  exact ⟨e1 [] [] (by decide), e2 ['a'] (by decide),
    e3 ['a'] ['#'] [] (by decide) (by decide),
    e4 ['a'] ['b'] (by decide) (by decide),
    e5 ['a'] ['b'] [' '] [] (by decide) (by decide) (by decide),
    e6 ['a'] ['b'] ['8'] 8 (by decide) (by decide) (by decide) (by decide),
    e7 ['a'] ['b'] ['8'] ['#'] [] 8 (by decide) (by decide) (by decide)
      (by decide) (by decide)⟩

/-- C4 counterexample: the third line `"80abc"` is not an integer, yet
`from_file` succeeds, because `std::istringstream >> int` accepts the
digit run `80` and ignores the trailing `abc`. -/
theorem junk_port_line_accepted :
    from_file (fun s => s) ["a".toList, "b".toList, "80abc".toList, "9090".toList]
      = .ok ⟨"a".toList, "b".toList, 80, 9090⟩
  ∧ List.all "80abc".toList isDigitChar = false :=
  ⟨rfl, by decide⟩

/-- C4 amended: a port line fails with the `"Line n: Invalid port
number"` diagnostic (which names line 3 or 4) exactly when stream
extraction fails on it — no digit after the optional sign, or an
out-of-`int`-range value; a line whose trimmed text begins with a valid
integer is accepted with that integer value, any trailing characters
ignored. -/
theorem port_line_diagnostics (expand : List Char → List Char) :
    (∀ l1 l2 l3 rest, rejectedLine (trim l1) = false → rejectedLine (trim l2) = false →
      rejectedLine (trim l3) = false → readInt (trim l3) = none →
      from_file expand (l1 :: l2 :: l3 :: rest) = .error "Line 3: Invalid port number")
  ∧ (∀ l1 l2 l3 l4 rest p, rejectedLine (trim l1) = false →
      rejectedLine (trim l2) = false → rejectedLine (trim l3) = false →
      readInt (trim l3) = some p → rejectedLine (trim l4) = false →
      readInt (trim l4) = none →
      from_file expand (l1 :: l2 :: l3 :: l4 :: rest)
        = .error "Line 4: Invalid port number")
  ∧ (∀ l1 l2 l3 l4 rest p q, rejectedLine (trim l1) = false →
      rejectedLine (trim l2) = false → rejectedLine (trim l3) = false →
      readInt (trim l3) = some p → rejectedLine (trim l4) = false →
      readInt (trim l4) = some q →
      from_file expand (l1 :: l2 :: l3 :: l4 :: rest)
        = .ok ⟨expand (trim l1), expand (trim l2), p, q⟩)
  ∧ namesLine "Line 3: Invalid port number" 3 = true
  ∧ namesLine "Line 4: Invalid port number" 4 = true := by
  refine ⟨fun l1 l2 l3 rest h1 h2 h3 h4 => ?_,
    fun l1 l2 l3 l4 rest p h1 h2 h3 h4 h5 h6 => ?_,
    fun l1 l2 l3 l4 rest p q h1 h2 h3 h4 h5 h6 => ?_, by decide, by decide⟩
  · simp [from_file, h1, h2, h3, h4]
  · simp [from_file, h1, h2, h3, h4, h5, h6]
  · simp [from_file, h1, h2, h3, h4, h5, h6]

/-- Witness for C4: a non-numeric third line is diagnosed with its line
number, and a numeric-prefix line parses. -/
theorem port_line_diagnostics_witness :
    from_file (fun s => s) ["a".toList, "b".toList, "x9".toList]
      = .error "Line 3: Invalid port number"
  ∧ from_file (fun s => s) ["a".toList, "b".toList, "8080".toList, "8081".toList]
      = .ok ⟨"a".toList, "b".toList, 8080, 8081⟩ := by
  obtain ⟨d3, d4, dok, hn3, hn4⟩ := port_line_diagnostics (fun s => s)
  exact ⟨d3 "a".toList "b".toList "x9".toList [] (by decide) (by decide)
      (by decide) (by decide),
    dok "a".toList "b".toList "8080".toList "8081".toList [] 8080 8081 (by decide)
      (by decide) (by decide) (by decide) (by decide) (by decide)⟩

/-- C5: for a four-line source accepted by `from_file`, `validate`
succeeds exactly when the expanded binary directory holds an executable
`llama-server`, the model path is readable, both ports lie in
[1024, 65535], and the two ports differ. -/
theorem parse_validate_iff (expand : List Char → List Char) (l1 l2 l3 l4 : List Char)
    (c : RuntimeConfig) (fs : FileSys)
    (h : from_file expand [l1, l2, l3, l4] = .ok c) :
    (from_file expand [l1, l2, l3, l4]).bind (validate fs) = .ok () ↔
      (fs.executable (get_llama_server_path c) = true
       ∧ fs.readable c.model_path = true
       ∧ 1024 ≤ c.llama_server_port ∧ c.llama_server_port ≤ 65535
       ∧ 1024 ≤ c.app_server_port ∧ c.app_server_port ≤ 65535
       ∧ c.llama_server_port ≠ c.app_server_port) := by
  rw [h]
  show validate fs c = .ok () ↔ _
  unfold validate
  split_ifs with h1 h2 h3 h4 h5
  · exact iff_of_false (by simp) (by simp [h1])
  · exact iff_of_false (by simp) (by simp [h2])
  · exact iff_of_false (by simp) (by rintro ⟨-, -, a, b, -, -, -⟩; omega)
  · exact iff_of_false (by simp) (by rintro ⟨-, -, -, -, a, b, -⟩; omega)
  · exact iff_of_false (by simp) (by rintro ⟨-, -, -, -, -, -, hne⟩; exact hne h5)
  · refine iff_of_true rfl ⟨?_, ?_, by omega, by omega, by omega, by omega, h5⟩
    · simpa using h1
    · simpa using h2

/-- Witness for C5 on a parseable four-line source and a filesystem
where every path check passes. -/
theorem parse_validate_iff_witness :
    (from_file (fun s => s)
        ["/opt/llama/bin".toList, "/models/m.gguf".toList, "8080".toList, "8081".toList]).bind
      (validate ⟨fun _ => true, fun _ => true⟩) = .ok () :=
  (parse_validate_iff (fun s => s) "/opt/llama/bin".toList "/models/m.gguf".toList
      "8080".toList "8081".toList
      ⟨"/opt/llama/bin".toList, "/models/m.gguf".toList, 8080, 8081⟩
      ⟨fun _ => true, fun _ => true⟩ rfl).mpr
    ⟨rfl, rfl, by decide, by decide, by decide, by decide, by decide⟩

end LlamaApp

namespace LlamaApp

/-- C9 counterexample: `"http://h:07"` has a nonempty colon-free host
and a decimal port field, yet `parse_url` normalises the port through
`std::stoi`/`std::to_string`, so `get_server_url` returns
`"http://h:7"`, not the original string. -/
theorem url_leading_zero_not_roundtripped :
    parse_url "http://h:07".toList = some (['h'], 7)
  ∧ get_server_url ['h'] 7 = "http://h:7".toList
  ∧ "http://h:7".toList ≠ "http://h:07".toList :=
  ⟨by decide, by decide, by decide⟩

/-- C9 amended: for `"http://H:P"` with `H` a nonempty colon-free host
and `P` a canonical decimal port numeral (nonempty, all digits, no
leading zero, value at most 65535), construction stores `(H, value P)`
and `get_server_url` reproduces the original string; for `"http://H"`
without a port, construction stores `(H, 8080)` and `get_server_url`
returns `"http://H:8080"`. -/
theorem url_roundtrip (H P : List Char)
    (hH : H ≠ []) (hHc : ':' ∉ H) (hP : P ≠ [])
    (hPd : ∀ c ∈ P, isDigitChar c = true)
    (hP0 : P.head? = some '0' → P = ['0'])
    (hPv : digitsToNat P ≤ 65535) :
    parse_url ("http://".toList ++ H ++ ':' :: P) = some (H, Int.ofNat (digitsToNat P))
  ∧ get_server_url H (Int.ofNat (digitsToNat P)) = "http://".toList ++ H ++ ':' :: P
  ∧ parse_url ("http://".toList ++ H) = some (H, 8080)
  ∧ get_server_url H 8080 = "http://".toList ++ H ++ ':' :: "8080".toList := by
  have hassoc1 : "http://".toList ++ H ++ ':' :: P = "http://".toList ++ (H ++ ':' :: P) :=
    List.append_assoc _ _ _
  have hstrip1 : stripScheme ("http://".toList ++ H ++ ':' :: P) = H ++ ':' :: P := by
    rw [hassoc1, stripScheme, if_pos (beginsWith_append "http://".toList (H ++ ':' :: P))]
    exact List.drop_left' (by decide)
  have hstrip2 : stripScheme ("http://".toList ++ H) = H := by
    rw [stripScheme, if_pos (beginsWith_append "http://".toList H)]
    exact List.drop_left' (by decide)
  have hmem : ':' ∈ H ++ ':' :: P := List.mem_append_right H (List.mem_cons_self ':' P)
  have htake : (H ++ ':' :: P).takeWhile (fun c => c != ':') = H := by
    refine takeWhile_all_append H ':' P (fun c hc => ?_) (by simp)
    simp only [bne_iff_ne, ne_eq]
    intro he
    exact hHc (he ▸ hc)
  have hhost : parse_url ("http://".toList ++ H ++ ':' :: P)
      = some (H, Int.ofNat (digitsToNat P)) := by
    rw [parse_url]
    rw [hstrip1]
    rw [if_pos hmem]
    rw [htake]
    dsimp only
    rw [drop_len_succ, readInt_digits P hP hPd hPv]
  have hurl : get_server_url H (Int.ofNat (digitsToNat P))
      = "http://".toList ++ H ++ ':' :: P := by
    rw [get_server_url, intToChars, if_neg (by simp only [Int.ofNat_eq_natCast]; omega)]
    rw [show (Int.ofNat (digitsToNat P)).toNat = digitsToNat P from rfl]
    rw [natToChars_digitsToNat P hP hPd hP0]
  have hnoport : parse_url ("http://".toList ++ H) = some (H, 8080) := by
    rw [parse_url]
    rw [hstrip2]
    rw [if_neg hHc]
  refine ⟨hhost, hurl, hnoport, ?_⟩
  rw [get_server_url, show intToChars 8080 = "8080".toList from rfl]

/-- Witness for C9 at the host `localhost` and the canonical port
numeral `8080`. -/
theorem url_roundtrip_witness :
    parse_url "http://localhost:8080".toList = some ("localhost".toList, 8080)
  ∧ get_server_url "localhost".toList 8080 = "http://localhost:8080".toList
  ∧ parse_url "http://localhost".toList = some ("localhost".toList, 8080) := by
  obtain ⟨h1, h2, h3, h4⟩ := url_roundtrip "localhost".toList "8080".toList
    (by decide) (by decide) (by decide) (by decide) (by decide) (by decide)
  exact ⟨h1, h2, h3⟩

end LlamaApp
